import Mathlib

/-!
Verification of the Task-Tracker backend (FastAPI + SQLAlchemy) against its
natural-language specification.

The relational store (PostgreSQL accessed through SQLAlchemy's async session)
is modelled as an explicit `Store` value: a list of `users` rows, a list of
`tasks` rows, and the `task_assignees` association table as a list of
(task_id, user_id) pairs (`src/app/models.py`).  Request handlers from
`src/app/main.py` and `src/auth/routes.py` become functions from a `Store`
(plus the request data) to an `Except Err` result together with the store
after the request; an `HTTPException` raised before `commit` leaves the store
unchanged, which the functions make explicit by returning the input store on
the error path.  Mocked email sending (`src/app/email_utils.py`) is recorded
as a list of `Email` values emitted by the handler.
-/

namespace TaskTracker

/-- Decidable equality of `Except` results, so that concrete runs of the
handlers can be checked by `decide`. -/
def exceptDecEq {ε α : Type} [DecidableEq ε] [DecidableEq α] :
    (a b : Except ε α) → Decidable (a = b)
  | .error e, .error f =>
      if h : e = f then .isTrue (by rw [h])
      else .isFalse (fun hh => h (by cases hh; rfl))
  | .error _, .ok _ => .isFalse (fun hh => by cases hh)
  | .ok _, .error _ => .isFalse (fun hh => by cases hh)
  | .ok a, .ok b =>
      if h : a = b then .isTrue (by rw [h])
      else .isFalse (fun hh => h (by cases hh; rfl))

instance {ε α : Type} [DecidableEq ε] [DecidableEq α] :
    DecidableEq (Except ε α) :=
  exceptDecEq

/-- Embeds `StatusRole` enum from `src/app/models.py`: Admin, Manager, Developer. -/
inductive StatusRole where
  | ADMIN
  | MANAGER
  | DEVELOPER
deriving DecidableEq, Repr

/-- The `.value` of each `StatusRole` member (`src/app/models.py`). -/
def StatusRole.value : StatusRole → String
  | .ADMIN => "Admin"
  | .MANAGER => "Manager"
  | .DEVELOPER => "Developer"

/-- Embeds `TaskStatusEnum` from `src/app/models.py`: TODO, In progress, Done. -/
inductive TaskStatusEnum where
  | TODO
  | IN_PROGRESS
  | DONE
deriving DecidableEq, Repr

/-- The `.value` of each `TaskStatusEnum` member (`src/app/models.py`). -/
def TaskStatusEnum.value : TaskStatusEnum → String
  | .TODO => "TODO"
  | .IN_PROGRESS => "In progress"
  | .DONE => "Done"

/-- How Python renders a bare enum member inside an f-string
(`str(TaskStatusEnum.DONE) = "TaskStatusEnum.DONE"`); used by the
notification body built in `update_task` (`src/app/main.py`). -/
def TaskStatusEnum.pyStr : TaskStatusEnum → String
  | .TODO => "TaskStatusEnum.TODO"
  | .IN_PROGRESS => "TaskStatusEnum.IN_PROGRESS"
  | .DONE => "TaskStatusEnum.DONE"

/-- A row of the `users` table (`class User` in `src/app/models.py`). -/
structure User where
  id : Nat
  username : String
  hashed_password : String
  role : StatusRole
deriving DecidableEq, Repr

/-- A row of the `tasks` table (`class Task` in `src/app/models.py`);
the assignees live in the separate `task_assignees` association table. -/
structure TaskRow where
  id : Nat
  title : String
  responsible_person_id : Nat
  status : TaskStatusEnum
  priority : Int
deriving DecidableEq, Repr

/-- The relational store: `users` and `tasks` tables plus the
`task_assignees` association table of (task_id, user_id) pairs
(`src/app/models.py`).  `nextTaskId` / `nextUserId` model the
system-assigned autoincrement primary keys.  `tasks` is kept in natural
insertion order, which for the autoincrement key is ascending by id; the
listing endpoint relies on this natural order (the spec: "identifier
ascending, per natural insertion order"). -/
structure Store where
  users : List User
  tasks : List TaskRow
  task_assignees : List (Nat × Nat)
  nextTaskId : Nat
  nextUserId : Nat
deriving DecidableEq, Repr

/-- The errors raised as `HTTPException` across `src/app/main.py`,
`src/auth/routes.py` and `src/auth/dependencies.py`, one constructor per
distinct raise site reachable in the modelled handlers. -/
inductive Err where
  | taskNotFound
  | userNotFound
  | assigneesNotFound (missing : List Nat)
  | noTasksFound
  | usernameTaken
  | incorrectCredentials
  | roleForbidden (required : StatusRole)
deriving DecidableEq, Repr

/-- The HTTP status code of each raised `HTTPException`. -/
def Err.status : Err → Nat
  | .taskNotFound => 404
  | .userNotFound => 404
  | .assigneesNotFound _ => 404
  | .noTasksFound => 404
  | .usernameTaken => 400
  | .incorrectCredentials => 401
  | .roleForbidden _ => 403

/-- The `detail` string of each raised `HTTPException`, as written in the
source.  (Python joins the `missing_assignees` set, whose iteration order
is unspecified; here the deduplicated first-occurrence order stands in.) -/
def Err.detail : Err → String
  | .taskNotFound => "Task not found"
  | .userNotFound => "User not found"
  | .assigneesNotFound missing =>
      "Assignees with IDs " ++ String.intercalate ", " (missing.map toString)
        ++ " not found"
  | .noTasksFound => "No tasks found"
  | .usernameTaken => "Username already registered"
  | .incorrectCredentials => "Incorrect username or password"
  | .roleForbidden required =>
      "Action requires \x27" ++ required.value ++ "\x27 role"

/-- Request body for task creation and update (`TaskCreate` in
`src/app/schemas.py`; `TaskBase` fields, `assignees` a list of user IDs). -/
structure TaskCreate where
  title : String
  responsible_person_id : Nat
  assignees : List Nat
  status : TaskStatusEnum
  priority : Int
deriving DecidableEq, Repr

/-- Response shape for a task (`TaskResponse` in `src/app/schemas.py`). -/
structure TaskResponse where
  id : Nat
  title : String
  responsible_person_id : Nat
  assignees : List Nat
  status : TaskStatusEnum
  priority : Int
deriving DecidableEq, Repr

/-- Embeds `PaginationInfo` from `src/app/schemas.py`. -/
structure PaginationInfo where
  page : Nat
  size : Nat
  total : Nat
deriving DecidableEq, Repr

/-- Embeds `AllTasksResponse` from `src/app/schemas.py`. -/
structure AllTasksResponse where
  pagination : PaginationInfo
  tasks : List TaskResponse
deriving DecidableEq, Repr

/-- An email as passed to `send_email_mock` (`src/app/email_utils.py`). -/
structure Email where
  to_email : String
  subject : String
  body : String
deriving DecidableEq, Repr

/-- Embeds `send_email_mock` (`src/app/email_utils.py`): prints the message and
returns `True`; an `SMTPException` from the transport would yield `False`.
`transportOk` models whether the transport raises; the printing itself is
a side effect with no bearing on the store. -/
def send_email_mock (transportOk : Bool) (to_email subject body : String) :
    Bool :=
  transportOk

/-- Embeds `get_task_or_404` (`src/app/main.py`): point lookup of a task by id;
raises 404 "Task not found" when absent. -/
def get_task_or_404 (s : Store) (task_id : Nat) : Except Err TaskRow :=
  match s.tasks.find? (fun t => t.id == task_id) with
  | none => .error .taskNotFound
  | some t => .ok t

/-- Embeds `get_user_or_404` (`src/app/main.py`): point lookup of a user by id;
raises 404 "User not found" when absent. -/
def get_user_or_404 (s : Store) (user_id : Nat) : Except Err User :=
  match s.users.find? (fun u => u.id == user_id) with
  | none => .error .userNotFound
  | some u => .ok u

/-- Embeds `verify_assignees_exist` (`src/app/main.py`): fetches the users whose
id is in `assignees_ids` (`User.id.in_`), computes the missing ids as the
set difference, raises 404 listing them if any, otherwise returns the
fetched users. -/
def verify_assignees_exist (assignees_ids : List Nat) (s : Store) :
    Except Err (List User) :=
  let assignees := s.users.filter (fun u => assignees_ids.contains u.id)
  let missing :=
    (assignees_ids.filter (fun i => !(assignees.any (fun u => u.id == i)))).dedup
  if missing.isEmpty then .ok assignees else .error (.assigneesNotFound missing)

/-- The assignee ids of task `task_id` as loaded through the
`assignees` relationship (`selectinload`): association rows for the task
joined back to the `users` table. -/
def loadedAssignees (s : Store) (task_id : Nat) : List Nat :=
  (s.users.filter (fun u => s.task_assignees.contains (task_id, u.id))).map
    User.id

/-- Shapes a task row into the response dict built by the handlers in
`src/app/main.py` ("id", "title", "responsible_person_id", "assignees" as
a list of user ids, "status", "priority"). -/
def taskToResponse (s : Store) (t : TaskRow) : TaskResponse :=
  { id := t.id
    title := t.title
    responsible_person_id := t.responsible_person_id
    assignees := loadedAssignees s t.id
    status := t.status
    priority := t.priority }

/-- Embeds `read_tasks` (`GET /tasks/`, `src/app/main.py`): offset/limit slice at
offset (page−1)×size, 404 "No tasks found" on an empty slice, otherwise the
page of responses with pagination info whose `total` is `len(tasks)`.
FastAPI's `Query` validators enforce page ≥ 1 and 1 ≤ size ≤ 100 before the
handler runs. -/
def read_tasks (s : Store) (page size : Nat) : Except Err AllTasksResponse :=
  let offset := (page - 1) * size
  let tasks := (s.tasks.drop offset).take size
  if tasks.isEmpty then
    .error .noTasksFound
  else
    .ok { pagination := { page := page, size := size, total := tasks.length }
          tasks := tasks.map (fun t => taskToResponse s t) }

/-- Embeds `read_task` (`GET /tasks/{task_id}`, `src/app/main.py`). -/
def read_task (s : Store) (task_id : Nat) : Except Err TaskResponse :=
  match get_task_or_404 s task_id with
  | .error e => .error e
  | .ok t => .ok (taskToResponse s t)

/-- Embeds `create_task` (`POST /tasks/`, `src/app/main.py`): resolve the
responsible person (404 otherwise), build the new task in memory, resolve
all assignees (404 listing missing ids otherwise), then in one transaction
insert the task row and its association rows and answer with the refreshed
task.  Any `HTTPException` fires before `commit`, so the store comes back
unchanged on the error path. -/
def create_task (s : Store) (tc : TaskCreate) :
    Except Err TaskResponse × Store :=
  match get_user_or_404 s tc.responsible_person_id with
  | .error e => (.error e, s)
  | .ok responsible_person =>
    match verify_assignees_exist tc.assignees s with
    | .error e => (.error e, s)
    | .ok assignees =>
      let new_task : TaskRow :=
        { id := s.nextTaskId
          title := tc.title
          responsible_person_id := responsible_person.id
          status := tc.status
          priority := tc.priority }
      let s' : Store :=
        { s with
          tasks := s.tasks ++ [new_task]
          task_assignees :=
            s.task_assignees ++ assignees.map (fun a => (new_task.id, a.id))
          nextTaskId := s.nextTaskId + 1 }
      (.ok (taskToResponse s' new_task), s')

/-- Embeds `update_task` (`PUT /tasks/{task_id}`, `src/app/main.py`): resolve the
task, the new responsible person and the new assignees (404 otherwise); if
the stored status differs from the supplied one, call `send_email_mock`
addressed to the supplied responsible person's username + "@example.com",
ignoring its boolean result; then replace every task field and the
association rows wholesale and commit.  `transportOk` feeds
`send_email_mock`'s transport; the emitted emails are returned alongside. -/
def update_task (s : Store) (task_id : Nat) (tu : TaskCreate)
    (transportOk : Bool) : Except Err TaskResponse × Store × List Email :=
  match get_task_or_404 s task_id with
  | .error e => (.error e, s, [])
  | .ok task =>
    match get_user_or_404 s tu.responsible_person_id with
    | .error e => (.error e, s, [])
    | .ok responsible_person =>
      match verify_assignees_exist tu.assignees s with
      | .error e => (.error e, s, [])
      | .ok assignees =>
        let emails : List Email :=
          if task.status ≠ tu.status then
            let subject := "Task \x27" ++ task.title ++ "\x27 status updated"
            let body :=
              "Dear " ++ responsible_person.username
                ++ ", the status of the task \x27" ++ task.title
                ++ "\x27 has been changed to " ++ tu.status.pyStr ++ "."
            let e : Email :=
              { to_email := responsible_person.username ++ "@example.com"
                subject := subject
                body := body }
            let _ := send_email_mock transportOk e.to_email e.subject e.body
            [e]
          else []
        let task' : TaskRow :=
          { id := task.id
            title := tu.title
            responsible_person_id := tu.responsible_person_id
            status := tu.status
            priority := tu.priority }
        let s' : Store :=
          { s with
            tasks := s.tasks.map (fun t => if t.id == task.id then task' else t)
            task_assignees :=
              (s.task_assignees.filter (fun p => p.fst != task.id))
                ++ assignees.map (fun a => (task.id, a.id)) }
        (.ok (taskToResponse s' task'), s', emails)

/-- Embeds `role_required` (`src/auth/dependencies.py`): the dependency compares
the authenticated user's role with the required one and raises 403
otherwise. -/
def role_required (required_role : StatusRole) (current_user : User) :
    Except Err User :=
  if current_user.role ≠ required_role then
    .error (.roleForbidden required_role)
  else
    .ok current_user

/-- Embeds `delete_task` (`DELETE /tasks/{task_id}`, `src/app/main.py`): the
`role_required(StatusRole.ADMIN)` dependency runs first; then the task is
resolved (404 otherwise) and deleted — SQLAlchemy removes the task row and
its `task_assignees` rows, touching no `users` row. -/
def delete_task (s : Store) (task_id : Nat) (current_user : User) :
    Except Err String × Store :=
  match role_required StatusRole.ADMIN current_user with
  | .error e => (.error e, s)
  | .ok _ =>
    match get_task_or_404 s task_id with
    | .error e => (.error e, s)
    | .ok task =>
      (.ok "Task deleted successfully",
        { s with
          tasks := s.tasks.filter (fun t => t.id != task.id)
          task_assignees :=
            s.task_assignees.filter (fun p => p.fst != task.id) })

/-- Models the external password-hashing primitive (`get_password_hash` in
`src/auth/utils.py`, out of the repository's specified scope): an injective
hashing stand-in. -/
def get_password_hash (password : String) : String :=
  "bcrypt$" ++ password

/-- Models the external `verify_password` primitive (`src/auth/utils.py`):
a plain password verifies against exactly the stored hash of itself. -/
def verify_password (plain_password hashed_password : String) : Bool :=
  get_password_hash plain_password == hashed_password

/-- The decoded content of the signed access token issued at login
(`create_access_token` in `src/auth/utils.py` signs `{"sub": username,
"role": role.value}` with an expiry; signing is out of scope, the carried
claims are modelled). -/
structure TokenData where
  sub : String
  role : String
deriving DecidableEq, Repr

/-- The login response (`Token` model in `src/auth/models.py`). -/
structure Token where
  access_token : TokenData
  token_type : String
deriving DecidableEq, Repr

/-- Embeds `get_user` (`src/auth/dependencies.py`): first user row whose username
matches. -/
def get_user (s : Store) (username : String) : Option User :=
  s.users.find? (fun u => u.username == username)

/-- Embeds `authenticate_user` (`src/auth/dependencies.py`): look the user up by
username; return a falsy result when the user is absent or the password
does not verify against the stored hash, the user otherwise. -/
def authenticate_user (s : Store) (username password : String) :
    Option User :=
  match get_user s username with
  | none => none
  | some user =>
    if !(verify_password password user.hashed_password) then none
    else some user

/-- Embeds `login_for_access_token` (`POST /auth/token`, `src/auth/routes.py`):
authenticate; on a falsy result raise 401 "Incorrect username or password";
otherwise issue the signed token carrying username and role. -/
def login_for_access_token (s : Store) (username password : String) :
    Except Err Token :=
  match authenticate_user s username password with
  | none => .error .incorrectCredentials
  | some user =>
    .ok { access_token := { sub := user.username, role := user.role.value }
          token_type := "bearer" }

/-- Request body of signup (`UserCreate` in `src/app/schemas.py`). -/
structure UserCreate where
  username : String
  role : StatusRole
  password : String
deriving DecidableEq, Repr

/-- Response of signup (`UserResponse` in `src/app/schemas.py`): id,
username and role only — the schema carries no password field, so the
`response_model` filtering never serializes the password or its hash. -/
structure UserResponse where
  id : Nat
  username : String
  role : StatusRole
deriving DecidableEq, Repr

/-- The JSON keys and rendered values of a serialized `UserResponse`
(pydantic `response_model=UserResponse` filtering in
`src/auth/routes.py`). -/
def UserResponse.render (r : UserResponse) : List (String × String) :=
  [("id", toString r.id), ("username", r.username), ("role", r.role.value)]

/-- Embeds `signup` (`POST /auth/signup`, `src/auth/routes.py`): 400 "Username
already registered" when a user with that username exists (nothing is
written); otherwise hash the password, insert the new user and return it
through the `UserResponse` schema. -/
def signup (s : Store) (uc : UserCreate) : Except Err UserResponse × Store :=
  match get_user s uc.username with
  | some _ => (.error .usernameTaken, s)
  | none =>
    let hashed_password := get_password_hash uc.password
    let db_user : User :=
      { id := s.nextUserId
        username := uc.username
        hashed_password := hashed_password
        role := uc.role }
    (.ok { id := db_user.id, username := db_user.username, role := db_user.role },
      { s with users := s.users ++ [db_user], nextUserId := s.nextUserId + 1 })

/-- Store well-formedness, the invariants the relational schema enforces
(`src/app/models.py`): primary keys are unique (`users.id`, the composite
key of `task_assignees`), autoincrement keys exceed every existing row's
key, `tasks` sits in natural insertion order (ascending id), association
rows reference existing task keys, and `users.username` is unique. -/
def Store.WF (s : Store) : Prop :=
  (s.users.map User.id).Nodup
  ∧ (s.users.map User.username).Nodup
  ∧ List.Pairwise (fun a b => a.id < b.id) s.tasks
  ∧ (∀ t ∈ s.tasks, t.id < s.nextTaskId)
  ∧ (∀ u ∈ s.users, u.id < s.nextUserId)
  ∧ (∀ p ∈ s.task_assignees, p.fst < s.nextTaskId)
  ∧ s.task_assignees.Nodup

instance (s : Store) : Decidable s.WF := by
  unfold Store.WF
  infer_instance

/-! ### Basic lemmas about the lookup helpers -/

theorem get_user_or_404_ok {s : Store} {user_id : Nat} {u : User}
    (h : get_user_or_404 s user_id = .ok u) : u ∈ s.users ∧ u.id = user_id := by
  unfold get_user_or_404 at h
  cases hf : s.users.find? (fun v => v.id == user_id) with
  | none => rw [hf] at h; exact absurd h (by simp)
  | some v =>
    rw [hf] at h
    cases h
    exact ⟨List.mem_of_find?_eq_some hf, by simpa using List.find?_some hf⟩

theorem get_user_or_404_error {s : Store} {user_id : Nat} {e : Err}
    (h : get_user_or_404 s user_id = .error e) :
    e = Err.userNotFound ∧ ∀ u ∈ s.users, u.id ≠ user_id := by
  unfold get_user_or_404 at h
  cases hf : s.users.find? (fun v => v.id == user_id) with
  | none =>
    rw [hf] at h
    cases h
    refine ⟨rfl, ?_⟩
    intro u hu
    have := List.find?_eq_none.mp hf u hu
    simpa using this
  | some v => rw [hf] at h; exact absurd h (by simp)

theorem get_user_or_404_of_exists {s : Store} {user_id : Nat}
    (h : ∃ u ∈ s.users, u.id = user_id) :
    ∃ u, get_user_or_404 s user_id = .ok u ∧ u ∈ s.users ∧ u.id = user_id := by
  cases hr : get_user_or_404 s user_id with
  | error e =>
    obtain ⟨u, hu, hid⟩ := h
    exact absurd hid ((get_user_or_404_error hr).2 u hu)
  | ok u => exact ⟨u, rfl, get_user_or_404_ok hr⟩

theorem get_task_or_404_ok {s : Store} {task_id : Nat} {t : TaskRow}
    (h : get_task_or_404 s task_id = .ok t) : t ∈ s.tasks ∧ t.id = task_id := by
  unfold get_task_or_404 at h
  cases hf : s.tasks.find? (fun v => v.id == task_id) with
  | none => rw [hf] at h; exact absurd h (by simp)
  | some v =>
    rw [hf] at h
    cases h
    exact ⟨List.mem_of_find?_eq_some hf, by simpa using List.find?_some hf⟩

theorem get_task_or_404_error {s : Store} {task_id : Nat} {e : Err}
    (h : get_task_or_404 s task_id = .error e) :
    e = Err.taskNotFound ∧ ∀ t ∈ s.tasks, t.id ≠ task_id := by
  unfold get_task_or_404 at h
  cases hf : s.tasks.find? (fun v => v.id == task_id) with
  | none =>
    rw [hf] at h
    cases h
    refine ⟨rfl, ?_⟩
    intro t ht
    have := List.find?_eq_none.mp hf t ht
    simpa using this
  | some v => rw [hf] at h; exact absurd h (by simp)

theorem get_task_or_404_of_exists {s : Store} {task_id : Nat}
    (h : ∃ t ∈ s.tasks, t.id = task_id) :
    ∃ t, get_task_or_404 s task_id = .ok t ∧ t ∈ s.tasks ∧ t.id = task_id := by
  cases hr : get_task_or_404 s task_id with
  | error e =>
    obtain ⟨t, ht, hid⟩ := h
    exact absurd hid ((get_task_or_404_error hr).2 t ht)
  | ok t => exact ⟨t, rfl, get_task_or_404_ok hr⟩

/-- For an id actually supplied, membership in the fetched-assignees rows is
existence of a user row with that id. -/
theorem fetched_any_iff {ids : List Nat} {s : Store} {i : Nat} (hi : i ∈ ids) :
    ((s.users.filter (fun u => ids.contains u.id)).any (fun u => u.id == i))
      = true ↔ ∃ u ∈ s.users, u.id = i := by
  rw [List.any_eq_true]
  constructor
  · rintro ⟨u, hu, hui⟩
    exact ⟨u, (List.mem_filter.mp hu).1, by simpa using hui⟩
  · rintro ⟨u, hu, hui⟩
    refine ⟨u, List.mem_filter.mpr ⟨hu, ?_⟩, by simpa using hui⟩
    subst hui
    simpa using hi

theorem verify_assignees_exist_ok {ids : List Nat} {s : Store} {l : List User}
    (h : verify_assignees_exist ids s = .ok l) :
    l = s.users.filter (fun u => ids.contains u.id)
      ∧ ∀ i ∈ ids, ∃ u ∈ s.users, u.id = i := by
  unfold verify_assignees_exist at h
  by_cases hm :
      ((ids.filter (fun i =>
          !((s.users.filter (fun u => ids.contains u.id)).any
            (fun u => u.id == i)))).dedup).isEmpty = true
  · rw [if_pos hm] at h
    cases h
    refine ⟨rfl, ?_⟩
    intro i hi
    rw [List.isEmpty_iff, List.dedup_eq_nil, List.filter_eq_nil_iff] at hm
    have := hm i hi
    rw [Bool.not_eq_true, Bool.not_eq_false'] at this
    exact (fetched_any_iff hi).mp this
  · rw [if_neg hm] at h
    exact absurd h (by simp)

theorem verify_assignees_exist_error {ids : List Nat} {s : Store} {e : Err}
    (h : verify_assignees_exist ids s = .error e) :
    ∃ missing, e = Err.assigneesNotFound missing ∧ missing ≠ []
      ∧ ∀ i, i ∈ missing ↔ i ∈ ids ∧ ∀ u ∈ s.users, u.id ≠ i := by
  unfold verify_assignees_exist at h
  by_cases hm :
      ((ids.filter (fun i =>
          !((s.users.filter (fun u => ids.contains u.id)).any
            (fun u => u.id == i)))).dedup).isEmpty = true
  · rw [if_pos hm] at h; exact absurd h (by simp)
  · rw [if_neg hm] at h
    cases h
    refine ⟨_, rfl, ?_, ?_⟩
    · intro hnil
      rw [hnil] at hm
      exact hm rfl
    · intro i
      rw [List.mem_dedup, List.mem_filter]
      constructor
      · rintro ⟨hi, hni⟩
        refine ⟨hi, ?_⟩
        intro u hu hui
        rw [Bool.not_eq_eq_eq_not, Bool.not_true] at hni
        exact absurd ((fetched_any_iff hi).mpr ⟨u, hu, hui⟩)
          (by rw [hni]; simp)
      · rintro ⟨hi, hno⟩
        refine ⟨hi, ?_⟩
        rw [Bool.not_eq_eq_eq_not, Bool.not_true]
        rw [← Bool.not_eq_true]
        intro hany
        obtain ⟨u, hu, hui⟩ := (fetched_any_iff hi).mp hany
        exact hno u hu hui

theorem verify_assignees_exist_of_all {ids : List Nat} {s : Store}
    (h : ∀ i ∈ ids, ∃ u ∈ s.users, u.id = i) :
    verify_assignees_exist ids s
      = .ok (s.users.filter (fun u => ids.contains u.id)) := by
  cases hr : verify_assignees_exist ids s with
  | error e =>
    obtain ⟨missing, _, hne, hmem⟩ := verify_assignees_exist_error hr
    rcases missing with _ | ⟨i, rest⟩
    · exact absurd rfl hne
    · have hi := (hmem i).mp (by simp)
      obtain ⟨u, hu, hui⟩ := h i hi.1
      exact absurd hui (hi.2 u hu)
  | ok l =>
    rw [(verify_assignees_exist_ok hr).1]

theorem mem_loadedAssignees {s : Store} {task_id x : Nat} :
    x ∈ loadedAssignees s task_id
      ↔ ∃ u ∈ s.users, u.id = x ∧ (task_id, x) ∈ s.task_assignees := by
  unfold loadedAssignees
  rw [List.mem_map]
  constructor
  · rintro ⟨u, hu, rfl⟩
    have := List.mem_filter.mp hu
    exact ⟨u, this.1, rfl, by simpa using this.2⟩
  · rintro ⟨u, hu, rfl, hmem⟩
    exact ⟨u, List.mem_filter.mpr ⟨hu, by simpa using hmem⟩, rfl⟩

/-! ### Concrete data used by the witnesses -/

/-- A developer user for concrete runs. -/
def alice : User :=
  { id := 1
    username := "alice"
    hashed_password := get_password_hash "alicepw"
    role := .DEVELOPER }

/-- A manager user for concrete runs. -/
def bob : User :=
  { id := 2
    username := "bob"
    hashed_password := get_password_hash "bobpw"
    role := .MANAGER }

/-- An admin user for concrete runs. -/
def rootUser : User :=
  { id := 3
    username := "root"
    hashed_password := get_password_hash "rootpw"
    role := .ADMIN }

/-- The task stored in `demoStore`. -/
def demoTask : TaskRow :=
  { id := 1
    title := "Fix login bug"
    responsible_person_id := 1
    status := .TODO
    priority := 1 }

/-- A small well-formed store: three users, one task assigned to bob. -/
def demoStore : Store :=
  { users := [alice, bob, rootUser]
    tasks := [demoTask]
    task_assignees := [(1, 2)]
    nextTaskId := 2
    nextUserId := 4 }

/-- A store with one user and fifteen tasks, for the pagination boundary. -/
def store15 : Store :=
  { users := [alice]
    tasks := (List.range 15).map (fun i =>
      { id := i + 1
        title := "task"
        responsible_person_id := 1
        status := .TODO
        priority := 0 })
    task_assignees := []
    nextTaskId := 16
    nextUserId := 2 }

/-! ### The claims -/

/-- Claim C7: every failed login yields the one Unauthorized error
(401, "Incorrect username or password"), whether the username resolves to
no user or the user exists and the password fails verification — the two
failure causes produce identical responses, so a caller cannot enumerate
users (`authenticate_user` in `src/auth/dependencies.py`,
`login_for_access_token` in `src/auth/routes.py`). -/
theorem login_failure_indistinguishable (s : Store) (username password : String) :
    (get_user s username = none →
      login_for_access_token s username password
        = .error Err.incorrectCredentials)
    ∧ (∀ u, get_user s username = some u →
      verify_password password u.hashed_password = false →
      login_for_access_token s username password
        = .error Err.incorrectCredentials)
    ∧ Err.incorrectCredentials.status = 401 := by
  refine ⟨?_, ?_, rfl⟩
  · intro h
    simp [login_for_access_token, authenticate_user, h]
  · intro u hu hv
    simp [login_for_access_token, authenticate_user, hu, hv]

/-- Witness for C7: in `demoStore`, an unknown username and a wrong
password for `alice` both produce the same 401 error value. -/
theorem login_failure_indistinguishable_witness :
    (get_user demoStore "mallory" = none
      ∧ get_user demoStore "alice" = some alice
      ∧ verify_password "wrong" alice.hashed_password = false)
    ∧ login_for_access_token demoStore "mallory" "pw"
        = .error Err.incorrectCredentials
    ∧ login_for_access_token demoStore "alice" "wrong"
        = .error Err.incorrectCredentials :=
  ⟨⟨by decide, by decide, by decide⟩,
    (login_failure_indistinguishable demoStore "mallory" "pw").1 (by decide),
    (login_failure_indistinguishable demoStore "alice" "wrong").2.1 alice
      (by decide) (by decide)⟩

/-- Claim C8: signup with a taken username fails with the
duplicate-username Conflict condition (HTTP 400, "Username already
registered") and the store — in particular the existing user's stored
password hash — is returned unchanged; a successful signup answers with
exactly the new user's id, username and role, and the serialized response
carries no password or hash field (`signup` in `src/auth/routes.py`,
`UserResponse` in `src/app/schemas.py`). -/
theorem signup_conflict_and_sanitized_response (s : Store) (uc : UserCreate) :
    (∀ u, get_user s uc.username = some u →
      signup s uc = (.error Err.usernameTaken, s)
        ∧ Err.usernameTaken.status = 400)
    ∧ (get_user s uc.username = none →
      (signup s uc).fst
          = .ok { id := s.nextUserId, username := uc.username, role := uc.role }
        ∧ (UserResponse.render
            { id := s.nextUserId, username := uc.username, role := uc.role }).map
              Prod.fst = ["id", "username", "role"]
        ∧ (signup s uc).snd.users = s.users
            ++ [{ id := s.nextUserId
                  username := uc.username
                  hashed_password := get_password_hash uc.password
                  role := uc.role }]) := by
  constructor
  · intro u hu
    refine ⟨?_, rfl⟩
    simp [signup, hu]
  · intro h
    refine ⟨?_, rfl, ?_⟩ <;> simp [signup, h, UserResponse.render]

/-- Witness for C8: re-registering "alice" in `demoStore` yields the 400
conflict with the store unchanged, and registering the fresh "carol"
answers with id, username and role only. -/
theorem signup_conflict_and_sanitized_response_witness :
    (get_user demoStore "alice" = some alice ∧ get_user demoStore "carol" = none)
    ∧ (signup demoStore { username := "alice", role := .DEVELOPER, password := "newpw" }
        = (.error Err.usernameTaken, demoStore)
        ∧ Err.usernameTaken.status = 400)
    ∧ (signup demoStore { username := "carol", role := .MANAGER, password := "pw" }).fst
        = .ok { id := 4, username := "carol", role := .MANAGER } :=
  ⟨⟨by decide, by decide⟩,
    (signup_conflict_and_sanitized_response demoStore
      { username := "alice", role := .DEVELOPER, password := "newpw" }).1 alice
      (by decide),
    ((signup_conflict_and_sanitized_response demoStore
      { username := "carol", role := .MANAGER, password := "pw" }).2 (by decide)).1⟩

/-- Claim C5: delete is role-gated — a non-Admin caller gets Forbidden
(403) with the store (task rows, fields, association rows) unchanged; an
Admin caller gets Not-Found (404) on a missing id with the store
unchanged; otherwise the task row and exactly its association rows are
removed, no user row is deleted, and success is reported (`role_required`
in `src/auth/dependencies.py`, `delete_task` in `src/app/main.py`). -/
theorem delete_task_semantics (s : Store) (task_id : Nat) (current_user : User) :
    (current_user.role ≠ StatusRole.ADMIN →
      delete_task s task_id current_user
          = (.error (Err.roleForbidden StatusRole.ADMIN), s)
        ∧ (Err.roleForbidden StatusRole.ADMIN).status = 403)
    ∧ (current_user.role = StatusRole.ADMIN → (∀ t ∈ s.tasks, t.id ≠ task_id) →
      delete_task s task_id current_user = (.error Err.taskNotFound, s))
    ∧ (current_user.role = StatusRole.ADMIN → (∃ t ∈ s.tasks, t.id = task_id) →
      delete_task s task_id current_user
          = (.ok "Task deleted successfully",
            { s with
              tasks := s.tasks.filter (fun t => t.id != task_id)
              task_assignees :=
                s.task_assignees.filter (fun p => p.fst != task_id) })
        ∧ (delete_task s task_id current_user).snd.users = s.users
        ∧ ∀ p ∈ (delete_task s task_id current_user).snd.task_assignees,
            p.fst ≠ task_id) := by
  refine ⟨?_, ?_, ?_⟩
  · intro h
    refine ⟨?_, rfl⟩
    unfold delete_task role_required
    rw [if_pos h]
  · intro hrole hnone
    unfold delete_task role_required
    rw [if_neg (by simp [hrole])]
    have hfind : get_task_or_404 s task_id = .error Err.taskNotFound := by
      unfold get_task_or_404
      rw [List.find?_eq_none.mpr (by intro t ht; simpa using hnone t ht)]
    rw [hfind]
  · intro hrole hsome
    obtain ⟨t, hfind, _, hid⟩ := get_task_or_404_of_exists hsome
    subst hid
    have hdel : delete_task s t.id current_user
        = (.ok "Task deleted successfully",
          { s with
            tasks := s.tasks.filter (fun v => v.id != t.id)
            task_assignees :=
              s.task_assignees.filter (fun p => p.fst != t.id) }) := by
      unfold delete_task role_required
      rw [if_neg (by simp [hrole]), hfind]
    refine ⟨hdel, ?_, ?_⟩
    · rw [hdel]
    · rw [hdel]
      intro p hp
      have := (List.mem_filter.mp hp).2
      simpa using this

/-- Witness for C5: in `demoStore`, the developer `alice` cannot delete
task 1; the admin `rootUser` deleting the absent task 99 gets Not-Found;
the admin deleting task 1 succeeds, removing the task row and its
association row and keeping every user row. -/
theorem delete_task_semantics_witness :
    (alice.role ≠ StatusRole.ADMIN
      ∧ rootUser.role = StatusRole.ADMIN
      ∧ (∀ t ∈ demoStore.tasks, t.id ≠ 99)
      ∧ (∃ t ∈ demoStore.tasks, t.id = 1))
    ∧ (delete_task demoStore 1 alice
        = (.error (Err.roleForbidden StatusRole.ADMIN), demoStore)
        ∧ (Err.roleForbidden StatusRole.ADMIN).status = 403)
    ∧ delete_task demoStore 99 rootUser = (.error Err.taskNotFound, demoStore)
    ∧ delete_task demoStore 1 rootUser
        = (.ok "Task deleted successfully",
          { demoStore with
            tasks := demoStore.tasks.filter (fun t => t.id != 1)
            task_assignees :=
              demoStore.task_assignees.filter (fun p => p.fst != 1) }) :=
  ⟨⟨by decide, by decide, by decide, by decide⟩,
    (delete_task_semantics demoStore 1 alice).1 (by decide),
    (delete_task_semantics demoStore 99 rootUser).2.1 (by decide) (by decide),
    ((delete_task_semantics demoStore 1 rootUser).2.2 (by decide) (by decide)).1⟩

/-- Claim C3: listing with page ≥ 1 and size ∈ [1,100] returns the slice
of the id-ascending task sequence at offset (page−1)×size, at most `size`
tasks, ordered by identifier ascending; an empty slice is answered with
Not-Found (404, "No tasks found") instead of an empty list
(`read_tasks` in `src/app/main.py`; the well-formed store keeps `tasks`
in natural insertion order, ascending by the autoincrement id). -/
theorem read_tasks_paginates (s : Store) (page size : Nat) (hwf : s.WF)
    (hp : 1 ≤ page) (hs1 : 1 ≤ size) (hs2 : size ≤ 100) :
    ((s.tasks.drop ((page - 1) * size)).take size = [] →
      read_tasks s page size = .error Err.noTasksFound
        ∧ Err.noTasksFound.status = 404)
    ∧ ((s.tasks.drop ((page - 1) * size)).take size ≠ [] →
      ∃ resp, read_tasks s page size = .ok resp
        ∧ resp.tasks.map TaskResponse.id
            = ((s.tasks.drop ((page - 1) * size)).take size).map TaskRow.id
        ∧ resp.tasks.length ≤ size
        ∧ List.Pairwise (fun a b => a < b) (resp.tasks.map TaskResponse.id)) := by
  constructor
  · intro h
    refine ⟨?_, rfl⟩
    simp [read_tasks, h]
  · intro h
    refine ⟨AllTasksResponse.mk
      (PaginationInfo.mk page size
        (((s.tasks.drop ((page - 1) * size)).take size).length))
      (((s.tasks.drop ((page - 1) * size)).take size).map
        (fun t => taskToResponse s t)), ?_, ?_, ?_, ?_⟩
    · simp [read_tasks, h]
    · simp [List.map_map]
      rfl
    · rw [List.length_map, List.length_take]
      exact min_le_left _ _
    · have hsorted : List.Pairwise (fun a b => a < b) (s.tasks.map TaskRow.id) :=
        List.pairwise_map.mpr hwf.2.2.1
      have hsub : List.Sublist
          (((s.tasks.drop ((page - 1) * size)).take size).map TaskRow.id)
          (s.tasks.map TaskRow.id) :=
        ((List.take_sublist _ _).trans (List.drop_sublist _ _)).map TaskRow.id
      have : List.Pairwise (fun a b => a < b)
          (((s.tasks.drop ((page - 1) * size)).take size).map TaskRow.id) :=
        hsorted.sublist hsub
      simpa [List.map_map, Function.comp, taskToResponse] using this

/-- Witness for C3: `store15` holds 15 tasks; with size 10, page 1 returns
10 tasks, page 2 returns 5, and page 3 is the 404 "No tasks found"
outcome, by the theorem applied at page 3. -/
theorem read_tasks_paginates_witness :
    (store15.WF ∧ 1 ≤ 3 ∧ 1 ≤ 10 ∧ 10 ≤ 100
      ∧ (store15.tasks.drop ((3 - 1) * 10)).take 10 = [])
    ∧ (read_tasks store15 3 10 = .error Err.noTasksFound
        ∧ Err.noTasksFound.status = 404)
    ∧ (read_tasks store15 1 10).toOption.map (fun r => r.tasks.length) = some 10
    ∧ (read_tasks store15 2 10).toOption.map (fun r => r.tasks.length) = some 5 :=
  ⟨⟨by decide, by decide, by decide, by decide, by decide⟩,
    (read_tasks_paginates store15 3 10 (by decide) (by decide) (by decide)
      (by decide)).1 (by decide),
    by decide, by decide⟩

/-- The page returned for page 2, size 10 of `store15`. -/
def c4resp : AllTasksResponse :=
  { pagination := { page := 2, size := 10, total := 5 }
    tasks := ((store15.tasks.drop 10).take 10).map
      (fun t => taskToResponse store15 t) }

/-- Claim C4: on every successful listing, the pagination metadata's
`total` equals the number of tasks in the returned page (`len(tasks)` in
`read_tasks`, `src/app/main.py`), not the number of tasks in the store,
and `page` and `size` echo the request. -/
theorem read_tasks_total_counts_page (s : Store) (page size : Nat)
    (resp : AllTasksResponse) (h : read_tasks s page size = .ok resp) :
    resp.pagination.total = resp.tasks.length
      ∧ resp.pagination.page = page
      ∧ resp.pagination.size = size := by
  simp only [read_tasks] at h
  by_cases he : ((s.tasks.drop ((page - 1) * size)).take size).isEmpty = true
  · rw [if_pos he] at h
    exact absurd h (by simp)
  · rw [if_neg he] at h
    cases h
    exact ⟨by simp [List.length_map], rfl, rfl⟩

/-- Witness for C4: page 2 of `store15` at size 10 reports total = 5, the
page's own row count, although the store holds 15 tasks. -/
theorem read_tasks_total_counts_page_witness :
    read_tasks store15 2 10 = .ok c4resp
    ∧ (c4resp.pagination.total = c4resp.tasks.length
        ∧ c4resp.pagination.page = 2
        ∧ c4resp.pagination.size = 10)
    ∧ store15.tasks.length = 15
    ∧ c4resp.pagination.total ≠ store15.tasks.length :=
  ⟨by decide,
    read_tasks_total_counts_page store15 2 10 c4resp (by decide),
    by decide, by decide⟩

/-- Claim C1 (amended): for a create-task request whose responsible-person
ID resolves, if at least one supplied assignee ID does not resolve then
the operation fails with Not-Found (404) whose error lists exactly the
missing IDs, and the store comes back unchanged — no task row and no
association rows are persisted, since `verify_assignees_exist` raises
before `session.add`/`commit` (`create_task` in `src/app/main.py`).
(The unamended claim also covered requests whose responsible-person ID is
itself missing; there the code answers 404 "User not found" without
listing the missing assignee IDs — see the counterexample.) -/
theorem create_task_missing_assignees (s : Store) (tc : TaskCreate)
    (hrp : ∃ u ∈ s.users, u.id = tc.responsible_person_id)
    (hmiss : ∃ i ∈ tc.assignees, ∀ u ∈ s.users, u.id ≠ i) :
    ∃ missing, create_task s tc = (.error (Err.assigneesNotFound missing), s)
      ∧ (Err.assigneesNotFound missing).status = 404
      ∧ missing ≠ []
      ∧ (∀ i, i ∈ missing ↔ i ∈ tc.assignees ∧ ∀ u ∈ s.users, u.id ≠ i) := by
  obtain ⟨rp, hfind, _, _⟩ := get_user_or_404_of_exists hrp
  cases hv : verify_assignees_exist tc.assignees s with
  | ok l =>
    obtain ⟨i, hi, hno⟩ := hmiss
    obtain ⟨u, hu, hui⟩ := (verify_assignees_exist_ok hv).2 i hi
    exact absurd hui (hno u hu)
  | error e =>
    obtain ⟨missing, rfl, hne, hchar⟩ := verify_assignees_exist_error hv
    refine ⟨missing, ?_, rfl, hne, hchar⟩
    unfold create_task
    rw [hfind, hv]

/-- Witness for C1: creating a task in `demoStore` with the resolving
responsible person 1 and assignees [2, 77, 77, 99] fails with the 404
error listing exactly the missing IDs 77 and 99, and the store is
unchanged. -/
theorem create_task_missing_assignees_witness :
    ((∃ u ∈ demoStore.users, u.id = 1)
      ∧ (∃ i ∈ ([2, 77, 77, 99] : List Nat), ∀ u ∈ demoStore.users, u.id ≠ i))
    ∧ (∃ missing,
        create_task demoStore
            { title := "t"
              responsible_person_id := 1
              assignees := [2, 77, 77, 99]
              status := .TODO
              priority := 1 }
          = (.error (Err.assigneesNotFound missing), demoStore)
        ∧ (Err.assigneesNotFound missing).status = 404
        ∧ missing ≠ []
        ∧ (∀ i, i ∈ missing ↔ i ∈ ([2, 77, 77, 99] : List Nat)
            ∧ ∀ u ∈ demoStore.users, u.id ≠ i)) :=
  ⟨⟨by decide, by decide⟩,
    create_task_missing_assignees demoStore
      { title := "t"
        responsible_person_id := 1
        assignees := [2, 77, 77, 99]
        status := .TODO
        priority := 1 }
      (by decide) (by decide)⟩

/-- The store used by the C1 counterexample: no users at all. -/
def c1Store : Store :=
  { users := [], tasks := [], task_assignees := [], nextTaskId := 1, nextUserId := 1 }

/-- The request used by the C1 counterexample: responsible person 1 and
assignee 2, neither of which exists. -/
def c1Req : TaskCreate :=
  { title := "t"
    responsible_person_id := 1
    assignees := [2]
    status := .TODO
    priority := 1 }

/-- Counterexample to C1 as stated: in `c1Store`, assignee ID 2 does not
resolve, yet the create fails with the "User not found" error for the
responsible person — an error that lists no missing assignee ID — because
the responsible-person lookup runs first (`create_task` in
`src/app/main.py`). -/
theorem create_task_missing_assignees_cex :
    (2 ∈ c1Req.assignees ∧ ∀ u ∈ c1Store.users, u.id ≠ 2)
    ∧ create_task c1Store c1Req = (.error Err.userNotFound, c1Store)
    ∧ Err.userNotFound.detail = "User not found"
    ∧ ¬ ∃ missing,
        (create_task c1Store c1Req).fst
          = .error (Err.assigneesNotFound missing) := by
  refine ⟨⟨by decide, by decide⟩, by decide, rfl, ?_⟩
  rintro ⟨missing, hm⟩
  have : (create_task c1Store c1Req).fst = .error Err.userNotFound := rfl
  rw [this] at hm
  simp at hm

/-- The task row created by the C6 witness run. -/
def c6task : TaskRow :=
  { id := 2
    title := "Ship release"
    responsible_person_id := 1
    status := .IN_PROGRESS
    priority := 2 }

/-- The store after the C6 witness run's create. -/
def c6store : Store :=
  { users := [alice, bob, rootUser]
    tasks := [demoTask, c6task]
    task_assignees := [(1, 2), (2, 2), (2, 3)]
    nextTaskId := 3
    nextUserId := 4 }

/-- The response of the C6 witness run's create. -/
def c6resp : TaskResponse :=
  { id := 2
    title := "Ship release"
    responsible_person_id := 1
    assignees := [2, 3]
    status := .IN_PROGRESS
    priority := 2 }

/-- Equation for a successful `create_task` run: with the responsible
person and the assignees resolved, the handler persists the new task row
and its association rows and answers with the refreshed task. -/
theorem create_task_ok_eq (s : Store) (tc : TaskCreate) (rp : User)
    (l : List User)
    (hU : get_user_or_404 s tc.responsible_person_id = .ok rp)
    (hV : verify_assignees_exist tc.assignees s = .ok l) :
    create_task s tc =
      (.ok (taskToResponse
        { s with
          tasks := s.tasks
            ++ [{ id := s.nextTaskId
                  title := tc.title
                  responsible_person_id := rp.id
                  status := tc.status
                  priority := tc.priority }]
          task_assignees := s.task_assignees
            ++ l.map (fun a => (s.nextTaskId, a.id))
          nextTaskId := s.nextTaskId + 1 }
        { id := s.nextTaskId
          title := tc.title
          responsible_person_id := rp.id
          status := tc.status
          priority := tc.priority }),
      { s with
        tasks := s.tasks
          ++ [{ id := s.nextTaskId
                title := tc.title
                responsible_person_id := rp.id
                status := tc.status
                priority := tc.priority }]
        task_assignees := s.task_assignees
          ++ l.map (fun a => (s.nextTaskId, a.id))
        nextTaskId := s.nextTaskId + 1 }) := by
  unfold create_task
  rw [hU, hV]

/-- Claim C6: after a successful create in a well-formed store, getting
the task by the returned identifier answers with the created task's
response; its title, responsible_person_id, status and priority are
those supplied at creation, and its assignees field holds, as a set,
exactly the supplied assignee IDs (`create_task` and `read_task` in
`src/app/main.py`). -/
theorem create_then_get_roundtrip (s : Store) (tc : TaskCreate)
    (resp : TaskResponse) (s' : Store) (hwf : s.WF)
    (h : create_task s tc = (.ok resp, s')) :
    read_task s' resp.id = .ok resp
      ∧ resp.title = tc.title
      ∧ resp.responsible_person_id = tc.responsible_person_id
      ∧ resp.status = tc.status
      ∧ resp.priority = tc.priority
      ∧ (∀ x, x ∈ resp.assignees ↔ x ∈ tc.assignees) := by
  obtain ⟨hN, hUN, hS, hTN, hUNx, hAT, hAN⟩ := hwf
  cases hU : get_user_or_404 s tc.responsible_person_id with
  | error e => unfold create_task at h; rw [hU] at h; simp at h
  | ok rp =>
  cases hV : verify_assignees_exist tc.assignees s with
  | error e => unfold create_task at h; rw [hU, hV] at h; simp at h
  | ok l =>
  rw [create_task_ok_eq s tc rp l hU hV] at h
  have hresp : resp = taskToResponse
      { s with
        tasks := s.tasks
          ++ [{ id := s.nextTaskId
                title := tc.title
                responsible_person_id := rp.id
                status := tc.status
                priority := tc.priority }]
        task_assignees := s.task_assignees
          ++ l.map (fun a => (s.nextTaskId, a.id))
        nextTaskId := s.nextTaskId + 1 }
      { id := s.nextTaskId
        title := tc.title
        responsible_person_id := rp.id
        status := tc.status
        priority := tc.priority } := by
    have := congrArg Prod.fst h
    simp only [] at this
    rw [Except.ok.injEq] at this
    exact this.symm
  have hstore : s' =
      { s with
        tasks := s.tasks
          ++ [{ id := s.nextTaskId
                title := tc.title
                responsible_person_id := rp.id
                status := tc.status
                priority := tc.priority }]
        task_assignees := s.task_assignees
          ++ l.map (fun a => (s.nextTaskId, a.id))
        nextTaskId := s.nextTaskId + 1 } :=
    (congrArg Prod.snd h).symm
  subst hresp
  subst hstore
  obtain ⟨hlval, hres⟩ := verify_assignees_exist_ok hV
  obtain ⟨hrpMem, hrpId⟩ := get_user_or_404_ok hU
  refine ⟨?_, rfl, hrpId, rfl, rfl, ?_⟩
  · unfold read_task get_task_or_404
    have hnone : s.tasks.find? (fun t => t.id == s.nextTaskId) = none :=
      List.find?_eq_none.mpr (fun t ht => by
        have := hTN t ht
        simp
        omega)
    simp only [taskToResponse, List.find?_append, hnone]
    simp
  · intro x
    simp only [taskToResponse]
    rw [mem_loadedAssignees]
    constructor
    · rintro ⟨u, hu, rfl, hmem⟩
      rcases List.mem_append.mp hmem with hold | hnew
      · exact absurd (hAT _ hold) (by simp)
      · obtain ⟨a, ha, hpa⟩ := List.mem_map.mp hnew
        have hpa2 : a.id = u.id := congrArg Prod.snd hpa
        rw [hlval] at ha
        have := (List.mem_filter.mp ha).2
        rw [hpa2] at this
        simpa using this
    · intro hx
      obtain ⟨u, hu, hux⟩ := hres x hx
      refine ⟨u, by simpa using hu, hux, List.mem_append.mpr (Or.inr ?_)⟩
      rw [hlval]
      refine List.mem_map.mpr ⟨u, List.mem_filter.mpr ⟨hu, ?_⟩, by rw [hux]⟩
      rw [hux]
      simpa using hx

/-- Witness for C6: creating a task in `demoStore` (responsible person 1,
assignees [2, 3]) and reading it back returns the same response, with the
supplied fields and assignee set {2, 3}. -/
theorem create_then_get_roundtrip_witness :
    (demoStore.WF
      ∧ create_task demoStore
          { title := "Ship release"
            responsible_person_id := 1
            assignees := [2, 3]
            status := .IN_PROGRESS
            priority := 2 }
        = (.ok c6resp, c6store))
    ∧ read_task c6store c6resp.id = .ok c6resp
    ∧ c6resp.title = "Ship release"
    ∧ c6resp.responsible_person_id = 1
    ∧ c6resp.status = .IN_PROGRESS
    ∧ c6resp.priority = 2
    ∧ (∀ x, x ∈ c6resp.assignees ↔ x ∈ ([2, 3] : List Nat)) := by
  refine ⟨⟨by decide, by decide⟩, ?_⟩
  exact create_then_get_roundtrip demoStore
    { title := "Ship release"
      responsible_person_id := 1
      assignees := [2, 3]
      status := .IN_PROGRESS
      priority := 2 } c6resp c6store (by decide) (by decide)

/-- Equation for a successful `update_task` run: with the task, the new
responsible person and the new assignees resolved, the handler emits one
notification exactly when the stored status differs from the supplied one
(addressed to the supplied responsible person, naming the stored title),
then replaces the task fields and association rows wholesale. -/
theorem update_task_ok_eq (s : Store) (task_id : Nat) (tu : TaskCreate)
    (transportOk : Bool) (task : TaskRow) (rp : User) (l : List User)
    (hT : get_task_or_404 s task_id = .ok task)
    (hU : get_user_or_404 s tu.responsible_person_id = .ok rp)
    (hV : verify_assignees_exist tu.assignees s = .ok l) :
    update_task s task_id tu transportOk =
      (.ok (taskToResponse
        { s with
          tasks := s.tasks.map (fun t =>
            if t.id == task.id then
              { id := task.id
                title := tu.title
                responsible_person_id := tu.responsible_person_id
                status := tu.status
                priority := tu.priority }
            else t)
          task_assignees :=
            (s.task_assignees.filter (fun p => p.fst != task.id))
              ++ l.map (fun a => (task.id, a.id)) }
        { id := task.id
          title := tu.title
          responsible_person_id := tu.responsible_person_id
          status := tu.status
          priority := tu.priority }),
      { s with
        tasks := s.tasks.map (fun t =>
          if t.id == task.id then
            { id := task.id
              title := tu.title
              responsible_person_id := tu.responsible_person_id
              status := tu.status
              priority := tu.priority }
          else t)
        task_assignees :=
          (s.task_assignees.filter (fun p => p.fst != task.id))
            ++ l.map (fun a => (task.id, a.id)) },
      if task.status ≠ tu.status then
        [{ to_email := rp.username ++ "@example.com"
           subject := "Task \x27" ++ task.title ++ "\x27 status updated"
           body := "Dear " ++ rp.username
             ++ ", the status of the task \x27" ++ task.title
             ++ "\x27 has been changed to " ++ tu.status.pyStr ++ "." }]
      else []) := by
  unfold update_task
  rw [hT, hU, hV]

/-- Claim C2: on every successful update, exactly one notification
attempt is made iff the supplied status differs from the stored status
(zero otherwise); the attempt is addressed to
`{responsible_username}@example.com` for the responsible person the task
carries once the update commits (the "current" responsible person of the
updated task); and the notification's boolean outcome is ignored — the
update's result, stored state and emitted mail are identical whether the
transport succeeds or fails (`update_task` in `src/app/main.py`,
`send_email_mock` in `src/app/email_utils.py`). -/
theorem update_status_change_notifies_once (s : Store) (task_id : Nat)
    (tu : TaskCreate) (transportOk : Bool) (task : TaskRow) (rp : User)
    (hT : get_task_or_404 s task_id = .ok task)
    (hU : get_user_or_404 s tu.responsible_person_id = .ok rp)
    (hA : ∀ i ∈ tu.assignees, ∃ u ∈ s.users, u.id = i) :
    (update_task s task_id tu transportOk).fst.isOk = true
    ∧ (update_task s task_id tu transportOk).snd.snd.length
        = (if task.status = tu.status then 0 else 1)
    ∧ (∀ e ∈ (update_task s task_id tu transportOk).snd.snd,
        e.to_email = rp.username ++ "@example.com")
    ∧ (∃ t' ∈ (update_task s task_id tu transportOk).snd.fst.tasks,
        t'.id = task_id ∧ t'.responsible_person_id = rp.id)
    ∧ update_task s task_id tu true = update_task s task_id tu false := by
  have hV := verify_assignees_exist_of_all hA
  have hE := update_task_ok_eq s task_id tu transportOk task rp _ hT hU hV
  obtain ⟨htm, hti⟩ := get_task_or_404_ok hT
  obtain ⟨-, hri⟩ := get_user_or_404_ok hU
  refine ⟨?_, ?_, ?_, ?_, ?_⟩
  · rw [hE]; rfl
  · rw [hE]
    by_cases hst : task.status = tu.status
    · simp [hst]
    · simp [hst]
  · intro e he
    rw [hE] at he
    by_cases hst : task.status = tu.status
    · rw [if_neg (by simpa using hst)] at he
      simp at he
    · rw [if_pos (by simpa using hst)] at he
      rw [List.mem_singleton] at he
      rw [he]
  · rw [hE]
    refine ⟨{ id := task.id
              title := tu.title
              responsible_person_id := tu.responsible_person_id
              status := tu.status
              priority := tu.priority }, ?_, hti, hri.symm⟩
    exact List.mem_map.mpr ⟨task, htm, by rw [if_pos (by simp)]⟩
  · rw [update_task_ok_eq s task_id tu true task rp _ hT hU hV,
      update_task_ok_eq s task_id tu false task rp _ hT hU hV]

/-- The status-changing update used by the C2 witness. -/
def c2req : TaskCreate :=
  { title := "Fix login bug"
    responsible_person_id := 2
    assignees := [1]
    status := .DONE
    priority := 1 }

/-- Witness for C2: updating `demoStore`'s task 1 from TODO to Done with
responsible person 2 ("bob") makes exactly one attempt, addressed to
"bob@example.com", independently of the transport outcome; the same
update re-submitted with the stored status TODO makes zero attempts. -/
theorem update_status_change_notifies_once_witness :
    (get_task_or_404 demoStore 1 = .ok demoTask
      ∧ get_user_or_404 demoStore 2 = .ok bob
      ∧ (∀ i ∈ c2req.assignees, ∃ u ∈ demoStore.users, u.id = i))
    ∧ ((update_task demoStore 1 c2req true).fst.isOk = true
      ∧ (update_task demoStore 1 c2req true).snd.snd.length
          = (if demoTask.status = c2req.status then 0 else 1)
      ∧ (∀ e ∈ (update_task demoStore 1 c2req true).snd.snd,
          e.to_email = bob.username ++ "@example.com")
      ∧ (∃ t' ∈ (update_task demoStore 1 c2req true).snd.fst.tasks,
          t'.id = 1 ∧ t'.responsible_person_id = bob.id)
      ∧ update_task demoStore 1 c2req true = update_task demoStore 1 c2req false)
    ∧ (update_task demoStore 1 c2req true).snd.snd.length = 1
    ∧ (update_task demoStore 1
        { c2req with status := .TODO } true).snd.snd.length = 0 :=
  ⟨⟨by decide, by decide, by decide⟩,
    update_status_change_notifies_once demoStore 1 c2req true demoTask bob
      (by decide) (by decide) (by decide),
    by decide, by decide⟩

/-- Claim C9: when a successful update changes both the status and the
responsible person, the single notification goes to the newly supplied
responsible person's `username + "@example.com"` — not to the responsible
person stored before the update — and its body greets the new responsible
person by username while naming the task's pre-update stored title
(`update_task` in `src/app/main.py` reads `responsible_person` from the
update payload and `task.title` from the not-yet-mutated row). -/
theorem update_notifies_new_responsible (s : Store) (task_id : Nat)
    (tu : TaskCreate) (transportOk : Bool) (task : TaskRow) (rp oldRp : User)
    (hwf : s.WF)
    (hT : get_task_or_404 s task_id = .ok task)
    (hU : get_user_or_404 s tu.responsible_person_id = .ok rp)
    (hA : ∀ i ∈ tu.assignees, ∃ u ∈ s.users, u.id = i)
    (hOld : get_user_or_404 s task.responsible_person_id = .ok oldRp)
    (hchg : task.responsible_person_id ≠ tu.responsible_person_id)
    (hst : task.status ≠ tu.status) :
    (update_task s task_id tu transportOk).snd.snd
      = [{ to_email := rp.username ++ "@example.com"
           subject := "Task \x27" ++ task.title ++ "\x27 status updated"
           body := "Dear " ++ rp.username
             ++ ", the status of the task \x27" ++ task.title
             ++ "\x27 has been changed to " ++ tu.status.pyStr ++ "." }]
    ∧ (∀ e ∈ (update_task s task_id tu transportOk).snd.snd,
        e.to_email ≠ oldRp.username ++ "@example.com") := by
  have hV := verify_assignees_exist_of_all hA
  have hE := update_task_ok_eq s task_id tu transportOk task rp _ hT hU hV
  have hname : oldRp.username ≠ rp.username := by
    intro hh
    apply hchg
    have heq : oldRp = rp :=
      List.inj_on_of_nodup_map hwf.2.1 (get_user_or_404_ok hOld).1
        (get_user_or_404_ok hU).1 hh
    rw [← (get_user_or_404_ok hOld).2, ← (get_user_or_404_ok hU).2, heq]
  have hmail : (update_task s task_id tu transportOk).snd.snd
      = [{ to_email := rp.username ++ "@example.com"
           subject := "Task \x27" ++ task.title ++ "\x27 status updated"
           body := "Dear " ++ rp.username
             ++ ", the status of the task \x27" ++ task.title
             ++ "\x27 has been changed to " ++ tu.status.pyStr ++ "." }] := by
    rw [hE]
    dsimp only
    rw [if_pos (by simpa using hst)]
  refine ⟨hmail, ?_⟩
  intro e he
  rw [hmail, List.mem_singleton] at he
  rw [he]
  dsimp only
  intro hh
  apply hname
  have hd := congrArg String.data hh
  simp only [String.data_append] at hd
  exact (String.ext ((List.append_left_injective _) hd)).symm

/-- Witness for C9: updating `demoStore`'s task 1 (responsible person 1,
"alice", status TODO) to responsible person 2 ("bob") and status Done
sends the one notification to "bob@example.com", not to
"alice@example.com", and its body greets bob while naming the stored
title "Fix login bug". -/
theorem update_notifies_new_responsible_witness :
    (demoStore.WF
      ∧ get_task_or_404 demoStore 1 = .ok demoTask
      ∧ get_user_or_404 demoStore 2 = .ok bob
      ∧ (∀ i ∈ ([] : List Nat), ∃ u ∈ demoStore.users, u.id = i)
      ∧ get_user_or_404 demoStore demoTask.responsible_person_id = .ok alice
      ∧ demoTask.responsible_person_id ≠ (2 : Nat)
      ∧ demoTask.status ≠ TaskStatusEnum.DONE)
    ∧ (update_task demoStore 1
          { title := "Fix login bug"
            responsible_person_id := 2
            assignees := []
            status := .DONE
            priority := 1 } true).snd.snd
        = [{ to_email := bob.username ++ "@example.com"
             subject := "Task \x27" ++ demoTask.title ++ "\x27 status updated"
             body := "Dear " ++ bob.username
               ++ ", the status of the task \x27" ++ demoTask.title
               ++ "\x27 has been changed to "
               ++ TaskStatusEnum.DONE.pyStr ++ "." }]
    ∧ (∀ e ∈ (update_task demoStore 1
          { title := "Fix login bug"
            responsible_person_id := 2
            assignees := []
            status := .DONE
            priority := 1 } true).snd.snd,
        e.to_email ≠ alice.username ++ "@example.com") :=
  ⟨⟨by decide, by decide, by decide, by decide, by decide, by decide, by decide⟩,
    update_notifies_new_responsible demoStore 1
      { title := "Fix login bug"
        responsible_person_id := 2
        assignees := []
        status := .DONE
        priority := 1 } true demoTask bob alice
      (by decide) (by decide) (by decide) (by decide) (by decide) (by decide)
      (by decide)⟩

/-- The user-id column of task `task_id`'s rows in the `task_assignees`
association table — the stored assignee list of the task
(`src/app/models.py`). -/
def assigneeRows (s : Store) (task_id : Nat) : List Nat :=
  (s.task_assignees.filter (fun q => q.fst == task_id)).map Prod.snd

/-- A task's slice of a duplicate-free association table is a
duplicate-free assignee list: rows sharing the task id are told apart by
their user id alone. -/
theorem rows_nodup_of_table {rows : List (Nat × Nat)} (h : rows.Nodup)
    (tid : Nat) :
    ((rows.filter (fun q => q.fst == tid)).map Prod.snd).Nodup := by
  refine List.Nodup.map_on ?_ (h.sublist (List.filter_sublist _))
  intro x hx y hy hxy
  have hx1 : x.fst = tid := by simpa using (List.mem_filter.mp hx).2
  have hy1 : y.fst = tid := by simpa using (List.mem_filter.mp hy).2
  exact Prod.ext_iff.mpr ⟨hx1.trans hy1.symm, hxy⟩

/-- Appending fresh association rows for one task id to rows of other
tasks keeps the composite key unique, provided user ids are unique. -/
theorem table_nodup_append (old : List (Nat × Nat)) (users : List User)
    (p : User → Bool) (nid : Nat)
    (hold : ∀ q ∈ old, q.fst ≠ nid)
    (holdN : old.Nodup)
    (hN : (users.map User.id).Nodup) :
    (old ++ (users.filter p).map (fun a => (nid, a.id))).Nodup := by
  have hmm : (users.filter p).map (fun a => (nid, a.id))
      = ((users.filter p).map User.id).map (fun i => (nid, i)) := by
    rw [List.map_map]
    rfl
  refine List.Nodup.append holdN ?_ ?_
  · rw [hmm]
    refine List.Nodup.map (fun a b hab => congrArg Prod.snd hab) ?_
    exact hN.sublist ((List.filter_sublist _).map User.id)
  · intro q hq hq'
    rw [hmm] at hq'
    obtain ⟨i, -, rfl⟩ := List.mem_map.mp hq'
    exact hold _ hq rfl

/-- The assignee rows of a freshly written task id are exactly the ids of
the fetched users: rows of other tasks do not carry that id. -/
theorem filterRows_append_fresh (old : List (Nat × Nat)) (l : List User)
    (nid : Nat) (hold : ∀ q ∈ old, q.fst ≠ nid) :
    ((old ++ l.map (fun a => (nid, a.id))).filter
        (fun q => q.fst == nid)).map Prod.snd
      = l.map User.id := by
  rw [List.filter_append]
  have h1 : old.filter (fun q => q.fst == nid) = [] :=
    List.filter_eq_nil_iff.mpr (fun q hq => by simpa using hold q hq)
  have h2 : (l.map (fun a => (nid, a.id))).filter (fun q => q.fst == nid)
      = l.map (fun a => (nid, a.id)) :=
    List.filter_eq_self.mpr (fun q hq => by
      obtain ⟨a, ha, rfl⟩ := List.mem_map.mp hq
      simp)
  rw [h1, h2, List.nil_append, List.map_map]
  rfl

/-- Fresh association rows written from a user fetch carry each supplied
resolving user id exactly once. -/
theorem count_fresh_rows (old : List (Nat × Nat)) (users : List User)
    (ids : List Nat) (nid uid : Nat)
    (hold : ∀ q ∈ old, q.fst ≠ nid)
    (hN : (users.map User.id).Nodup)
    (hmem : uid ∈ ids)
    (hres : ∃ u ∈ users, u.id = uid) :
    (((old ++ (users.filter (fun u => ids.contains u.id)).map
          (fun a => (nid, a.id))).filter
        (fun q => q.fst == nid)).map Prod.snd).count uid = 1 := by
  rw [filterRows_append_fresh old _ nid hold]
  apply List.count_eq_one_of_mem
      (hN.sublist ((List.filter_sublist _).map User.id))
  obtain ⟨u, hu, rfl⟩ := hres
  exact List.mem_map.mpr
    ⟨u, List.mem_filter.mpr ⟨hu, by simpa using hmem⟩, rfl⟩

/-- Claim C10: a create or update whose assignees list repeats an existing
user id still succeeds (duplicates are not an error — `verify_assignees_exist`
works on the set of supplied ids), and the task's stored assignee rows then
carry each supplied user exactly once; moreover every store-mutating
operation (create, update, delete, signup) leaves the `task_assignees`
table free of duplicate rows, so no task's assignee list ever holds a user
more than once (`verify_assignees_exist` in `src/app/main.py`,
`task_assignees` in `src/app/models.py`). -/
theorem assignee_uniqueness (s : Store) (tc : TaskCreate) (task_id : Nat)
    (tu : TaskCreate) (transportOk : Bool) (uc : UserCreate)
    (current_user : User) (hwf : s.WF) :
    ((∃ u ∈ s.users, u.id = tc.responsible_person_id) →
      (∀ i ∈ tc.assignees, ∃ u ∈ s.users, u.id = i) →
      ∃ resp, (create_task s tc).fst = .ok resp
        ∧ ∀ uid ∈ tc.assignees,
            (assigneeRows (create_task s tc).snd resp.id).count uid = 1)
    ∧ ((∃ t ∈ s.tasks, t.id = task_id) →
      (∃ u ∈ s.users, u.id = tu.responsible_person_id) →
      (∀ i ∈ tu.assignees, ∃ u ∈ s.users, u.id = i) →
      ∃ resp, (update_task s task_id tu transportOk).fst = .ok resp
        ∧ ∀ uid ∈ tu.assignees,
            (assigneeRows (update_task s task_id tu transportOk).snd.fst
              task_id).count uid = 1)
    ∧ (∀ tid, (assigneeRows (create_task s tc).snd tid).Nodup)
    ∧ (∀ tid,
        (assigneeRows (update_task s task_id tu transportOk).snd.fst tid).Nodup)
    ∧ (∀ tid, (assigneeRows (delete_task s task_id current_user).snd tid).Nodup)
    ∧ (∀ tid, (assigneeRows (signup s uc).snd tid).Nodup) := by
  obtain ⟨hN, hUN, hS, hTN, hUNx, hAT, hAN⟩ := hwf
  refine ⟨?_, ?_, ?_, ?_, ?_, ?_⟩
  · intro hrp hres
    obtain ⟨rp, hU, -, -⟩ := get_user_or_404_of_exists hrp
    have hV := verify_assignees_exist_of_all hres
    rw [create_task_ok_eq s tc rp _ hU hV]
    refine ⟨_, rfl, ?_⟩
    intro uid hmem
    exact count_fresh_rows s.task_assignees s.users tc.assignees s.nextTaskId
      uid (fun q hq => Nat.ne_of_lt (hAT q hq)) hN hmem (hres uid hmem)
  · intro htask hrp hres
    obtain ⟨task, hT, htm, hti⟩ := get_task_or_404_of_exists htask
    subst hti
    obtain ⟨rp, hU, -, -⟩ := get_user_or_404_of_exists hrp
    have hV := verify_assignees_exist_of_all hres
    rw [update_task_ok_eq s task.id tu transportOk task rp _ hT hU hV]
    refine ⟨_, rfl, ?_⟩
    intro uid hmem
    exact count_fresh_rows
      (s.task_assignees.filter (fun q => q.fst != task.id)) s.users
      tu.assignees task.id uid
      (fun q hq => by simpa using (List.mem_filter.mp hq).2)
      hN hmem (hres uid hmem)
  · intro tid
    cases hU : get_user_or_404 s tc.responsible_person_id with
    | error e =>
      have hC : create_task s tc = (.error e, s) := by
        unfold create_task
        rw [hU]
      rw [hC]
      exact rows_nodup_of_table hAN tid
    | ok rp =>
      cases hV : verify_assignees_exist tc.assignees s with
      | error e =>
        have hC : create_task s tc = (.error e, s) := by
          unfold create_task
          rw [hU, hV]
        rw [hC]
        exact rows_nodup_of_table hAN tid
      | ok l =>
        have hl := (verify_assignees_exist_ok hV).1
        subst hl
        rw [create_task_ok_eq s tc rp _ hU hV]
        exact rows_nodup_of_table
          (table_nodup_append s.task_assignees s.users _ s.nextTaskId
            (fun q hq => Nat.ne_of_lt (hAT q hq)) hAN hN) tid
  · intro tid
    cases hT : get_task_or_404 s task_id with
    | error e =>
      have hC : update_task s task_id tu transportOk = (.error e, s, []) := by
        unfold update_task
        rw [hT]
      rw [hC]
      exact rows_nodup_of_table hAN tid
    | ok task =>
      cases hU : get_user_or_404 s tu.responsible_person_id with
      | error e =>
        have hC : update_task s task_id tu transportOk = (.error e, s, []) := by
          unfold update_task
          rw [hT, hU]
        rw [hC]
        exact rows_nodup_of_table hAN tid
      | ok rp =>
        cases hV : verify_assignees_exist tu.assignees s with
        | error e =>
          have hC : update_task s task_id tu transportOk
              = (.error e, s, []) := by
            unfold update_task
            rw [hT, hU, hV]
          rw [hC]
          exact rows_nodup_of_table hAN tid
        | ok l =>
          have hl := (verify_assignees_exist_ok hV).1
          subst hl
          rw [update_task_ok_eq s task_id tu transportOk task rp _ hT hU hV]
          exact rows_nodup_of_table
            (table_nodup_append
              (s.task_assignees.filter (fun q => q.fst != task.id)) s.users _
              task.id (fun q hq => by simpa using (List.mem_filter.mp hq).2)
              (hAN.sublist (List.filter_sublist _)) hN) tid
  · intro tid
    by_cases hrole : current_user.role = StatusRole.ADMIN
    · cases hT : get_task_or_404 s task_id with
      | error e =>
        have hD : delete_task s task_id current_user = (.error e, s) := by
          unfold delete_task role_required
          rw [if_neg (by simp [hrole]), hT]
        rw [hD]
        exact rows_nodup_of_table hAN tid
      | ok task =>
        have hD : delete_task s task_id current_user
            = (.ok "Task deleted successfully",
              { s with
                tasks := s.tasks.filter (fun t => t.id != task.id)
                task_assignees :=
                  s.task_assignees.filter (fun q => q.fst != task.id) }) := by
          unfold delete_task role_required
          rw [if_neg (by simp [hrole]), hT]
        rw [hD]
        exact rows_nodup_of_table (hAN.sublist (List.filter_sublist _)) tid
    · have hD : delete_task s task_id current_user
          = (.error (Err.roleForbidden StatusRole.ADMIN), s) := by
        unfold delete_task role_required
        rw [if_pos hrole]
      rw [hD]
      exact rows_nodup_of_table hAN tid
  · intro tid
    cases hg : get_user s uc.username with
    | some u =>
      have hSg : signup s uc = (.error Err.usernameTaken, s) := by
        unfold signup
        rw [hg]
      rw [hSg]
      exact rows_nodup_of_table hAN tid
    | none =>
      have hSg : signup s uc =
          (.ok { id := s.nextUserId, username := uc.username, role := uc.role },
            { s with
              users := s.users
                ++ [{ id := s.nextUserId
                      username := uc.username
                      hashed_password := get_password_hash uc.password
                      role := uc.role }]
              nextUserId := s.nextUserId + 1 }) := by
        unfold signup
        rw [hg]
      rw [hSg]
      exact rows_nodup_of_table hAN tid

/-- The duplicate-assignee create request used by the C10 witness. -/
def c10req : TaskCreate :=
  { title := "Dup assignees"
    responsible_person_id := 1
    assignees := [2, 2, 3]
    status := .TODO
    priority := 0 }

/-- Witness for C10: creating a task in `demoStore` with assignees
[2, 2, 3] succeeds, and the stored rows of the created task (id 2) carry
user 2 exactly once and user 3 exactly once. -/
theorem assignee_uniqueness_witness :
    (demoStore.WF
      ∧ (∃ u ∈ demoStore.users, u.id = c10req.responsible_person_id)
      ∧ (∀ i ∈ c10req.assignees, ∃ u ∈ demoStore.users, u.id = i))
    ∧ (∃ resp, (create_task demoStore c10req).fst = .ok resp
        ∧ ∀ uid ∈ c10req.assignees,
            (assigneeRows (create_task demoStore c10req).snd resp.id).count uid
              = 1)
    ∧ (assigneeRows (create_task demoStore c10req).snd 2) = [2, 3] :=
  ⟨⟨by decide, by decide, by decide⟩,
    (assignee_uniqueness demoStore c10req 1 c10req true
      { username := "x", role := .DEVELOPER, password := "p" } alice
      (by decide)).1 (by decide) (by decide),
    by decide⟩

end TaskTracker
